import Mathlib

/-!
Verification of src/ts_plotting.py.

The repository consists of one Python function, `plot_time_series`, which
assembles a plotly figure (a list of traces plus a layout record) and then
calls `fig.show()`.  We embed it shallowly:

* a pandas DataFrame is modelled by its DatetimeIndex (an abstract list of
  timestamps) and its list of columns; `.iloc[:, 0]` selects the first column;
* a plotly `go.Scatter` trace is a record of the keyword arguments the code
  passes (`x`, `y`, `mode`, `name`, `marker`, `line`);
* the layout record mirrors the keyword arguments of `fig.update_layout`;
  the float literals 1.5 and 1.02 are carried as exact rationals, which is
  faithful because the code only passes them through, never computes;
* Python exceptions become the `Except` monad: the embedding returns
  `Except.ok fig` exactly when the Python call reaches `fig.show()` and
  displays `fig` (the rendering side effect), and `Except.error e` when the
  call raises `e` beforehand; a `dict` lookup that misses raises `KeyError`.
Evaluation order of the Python code (validation, then the training trace,
then the test trace, then the forecast trace, then layout, then show) is
preserved by the order of the `Except` binds.
-/

/-- Timestamps of a DatetimeIndex are opaque; we model them as integers. -/
abbrev Timestamp := Int

/-- A pandas DataFrame as used by the code: an index plus data columns. -/
structure DataFrame where
  index : List Timestamp
  cols : List (List Int)
deriving DecidableEq, Repr

/-- `df.iloc[:, 0]`: the first data column of the frame. -/
def iloc0 (df : DataFrame) : List Int :=
  df.cols.headD []

/-- The exceptions the function can raise: `ValueError(msg)` from the
explicit validation, and `KeyError(key)` from a missing dict key. -/
inductive PlotError where
  | valueError (msg : String)
  | keyError (key : String)
deriving DecidableEq, Repr

/-- `e.isKeyError` is true when the raised exception is a `KeyError`. -/
def PlotError.isKeyError : PlotError → Bool
  | PlotError.keyError _ => true
  | PlotError.valueError _ => false

/-- A Python color dict, as a finite partial map from role to color. -/
abbrev ColorDict := List (String × String)

/-- Python `d[k]`: the value at `k`, or a raised `KeyError k` when absent. -/
def dictGet (d : ColorDict) (k : String) : Except PlotError String :=
  match d.find? (fun p => p.1 == k) with
  | some p => Except.ok p.2
  | none => Except.error (PlotError.keyError k)

/-- `d` has an entry for key `k`. -/
def hasKey (d : ColorDict) (k : String) : Bool :=
  (d.find? (fun p => p.1 == k)).isSome

/-- The `marker=dict(...)` argument of `go.Scatter`. -/
structure MarkerStyle where
  color : String
  size : Nat
deriving DecidableEq, Repr

/-- The `line=dict(...)` argument of `go.Scatter`. -/
structure LineStyle where
  color : String
  dash : Option String
deriving DecidableEq, Repr

/-- One `go.Scatter` trace: the keyword arguments the code passes. -/
structure Trace where
  x : List Timestamp
  y : List Int
  mode : String
  name : String
  marker : Option MarkerStyle
  line : Option LineStyle
deriving DecidableEq, Repr

/-- The `xaxis=dict(...)` argument of `fig.update_layout`. -/
structure XAxisSpec where
  showspikes : Bool
  spikemode : String
  spikesnap : String
  spikedash : String
  spikethickness : Rat
  spikecolor : String
deriving DecidableEq, Repr

/-- The `yaxis=dict(...)` argument of `fig.update_layout`. -/
structure YAxisSpec where
  showspikes : Bool
deriving DecidableEq, Repr

/-- The `legend=dict(...)` argument of `fig.update_layout`. -/
structure LegendSpec where
  orientation : String
  yanchor : String
  y : Rat
  xanchor : String
  x : Rat
deriving DecidableEq, Repr

/-- The figure layout: the keyword arguments of `fig.update_layout`. -/
structure Layout where
  title : String
  xaxis : XAxisSpec
  yaxis : YAxisSpec
  hovermode : String
  template : String
  xaxis_title : String
  yaxis_title : String
  legend : LegendSpec
deriving DecidableEq, Repr

/-- A plotly figure: its traces in insertion order, plus its layout. -/
structure Figure where
  traces : List Trace
  layout : Layout
deriving DecidableEq, Repr

/-- The message of the `ValueError` raised on an invalid `test_data_mode`
(source lines 49-51). -/
def invalidModeMsg : String :=
  "Invalid value for test_data_mode. Choose markers or lines."

/-- The default color dict assigned when `color_dict is None`
(source lines 53-58). -/
def defaultColorDict : ColorDict :=
  [("training", "#0072B2"), ("test", "#000000"), ("forecast", "#FF0000")]

/-- Lines 53-58: `color_dict` is replaced by the default dict exactly when
the caller passed `None`; a supplied dict is used as-is. -/
def resolveColorDict (color_dict : Option ColorDict) : ColorDict :=
  match color_dict with
  | none => defaultColorDict
  | some d => d

/-- The layout passed to `fig.update_layout` (source lines 110-126). -/
def figureLayout (y_axis_label : String) : Layout :=
  { title := "Univariate Time Series Visualization"
    xaxis := { showspikes := true, spikemode := "across", spikesnap := "cursor",
               spikedash := "dot", spikethickness := 3/2, spikecolor := "gray" }
    yaxis := { showspikes := false }
    hovermode := "x"
    template := "plotly_white"
    xaxis_title := "Date"
    yaxis_title := y_axis_label
    legend := { orientation := "h", yanchor := "bottom", y := 102/100,
                xanchor := "right", x := 1 } }

/-- Embedding of `plot_time_series` (src/ts_plotting.py, lines 9-129).
`Except.ok fig` means the call reached `fig.show()` and displayed `fig`;
`Except.error e` means it raised `e` before any display side effect. -/
def plot_time_series (training_data : DataFrame) (test_data : Option DataFrame)
    (forecast : Option DataFrame) (test_data_mode : String)
    (y_axis_label : String) (color_dict : Option ColorDict) :
    Except PlotError Figure :=
  -- Lines 47-51: validate test_data_mode before anything else.
  if test_data_mode ∉ ["markers", "lines"] then
    Except.error (PlotError.valueError invalidModeMsg)
  else
    -- Lines 53-58: default colors only when color_dict is None.
    let cd := resolveColorDict color_dict
    -- Lines 64-72: training trace; color_dict["training"] may raise.
    Except.bind (dictGet cd "training") (fun ctrain =>
    let trainingTrace : Trace :=
      { x := training_data.index, y := iloc0 training_data,
        mode := "lines", name := "Training Data",
        marker := none, line := some { color := ctrain, dash := none } }
    -- Lines 75-93: test trace; the conditional expressions look up
    -- color_dict["test"] only in the branch matching test_data_mode.
    let testPart : Except PlotError (List Trace) :=
      match test_data with
      | none => Except.ok []
      | some td =>
        Except.bind
          (if test_data_mode = "markers"
            then Except.map (fun c => some { color := c, size := 6 }) (dictGet cd "test")
            else Except.ok none)
          (fun marker =>
        Except.bind
          (if test_data_mode = "lines"
            then Except.map (fun c => some { color := c, dash := none }) (dictGet cd "test")
            else Except.ok none)
          (fun line =>
          Except.ok [{ x := td.index, y := iloc0 td, mode := test_data_mode,
                       name := "Test Data", marker := marker, line := line }]))
    -- Lines 96-107: forecast trace, a dashed line.
    let fcPart : Except PlotError (List Trace) :=
      match forecast with
      | none => Except.ok []
      | some fc =>
        Except.map
          (fun c => [{ x := fc.index, y := iloc0 fc, mode := "lines",
                       name := "Point Forecast", marker := none,
                       line := some { color := c, dash := some "dash" } }])
          (dictGet cd "forecast")
    Except.bind testPart (fun testTraces =>
    Except.bind fcPart (fun fcTraces =>
    -- Lines 110-129: fixed layout, then fig.show().
    Except.ok { traces := trainingTrace :: (testTraces ++ fcTraces),
                layout := figureLayout y_axis_label })))

/-- `raisesKeyError r` is true when the call raised a `KeyError`. -/
def raisesKeyError (r : Except PlotError Figure) : Bool :=
  match r with
  | Except.error e => e.isKeyError
  | Except.ok _ => false

/-- The color visible on a trace: the marker color when a marker dict was
passed, otherwise the line color when a line dict was passed. -/
def traceColor (t : Trace) : Option String :=
  match t.marker with
  | some m => some m.color
  | none => Option.map (fun l => l.color) t.line

/-- The displayed figure of a completed call, or a dummy for a raising one;
used only to name concrete witnesses. -/
def figOrDefault (r : Except PlotError Figure) : Figure :=
  match r with
  | Except.ok f => f
  | Except.error _ => { traces := [], layout := figureLayout "" }

/-- A concrete three-row, one-column frame used in witnesses. -/
def dfTrain : DataFrame := { index := [0, 1, 2], cols := [[10, 11, 12]] }

/-- A second concrete frame used in witnesses. -/
def dfTest : DataFrame := { index := [3, 4], cols := [[13, 14]] }

/-- A third concrete frame used in witnesses. -/
def dfFc : DataFrame := { index := [5, 6], cols := [[15, 16]] }

theorem except_bind_ok {α β : Type} (x : Except PlotError α) (f : α → Except PlotError β)
    (b : β) : Except.bind x f = Except.ok b ↔ ∃ a, x = Except.ok a ∧ f a = Except.ok b := by
  cases x <;> simp [Except.bind]

theorem except_map_ok {α β : Type} (f : α → β) (x : Except PlotError α) (b : β) :
    Except.map f x = Except.ok b ↔ ∃ a, x = Except.ok a ∧ f a = b := by
  cases x <;> simp [Except.map, eq_comm]

theorem dictGet_of_hasKey_false {d : ColorDict} {k : String} (h : hasKey d k = false) :
    dictGet d k = Except.error (PlotError.keyError k) := by
  unfold hasKey at h
  unfold dictGet
  cases hf : d.find? (fun p => p.1 == k) <;> simp [hf] at h ⊢

theorem dictGet_of_hasKey_true {d : ColorDict} {k : String} (h : hasKey d k = true) :
    ∃ c, dictGet d k = Except.ok c := by
  unfold hasKey at h
  unfold dictGet
  cases hf : d.find? (fun p => p.1 == k) <;> simp [hf] at h ⊢

/-- Claim C1: for every call with a `test_data_mode` other than "markers" or
"lines", the function raises the invalid-display-mode `ValueError` before any
other work — whatever the data and color arguments are (so no color lookup,
trace construction, or display happens; in particular no `KeyError` from a
broken `color_dict` can preempt it). -/
theorem C1_invalid_mode_raises (training_data : DataFrame)
    (test_data forecast : Option DataFrame) (test_data_mode y_axis_label : String)
    (color_dict : Option ColorDict)
    (h1 : test_data_mode ≠ "markers") (h2 : test_data_mode ≠ "lines") :
    plot_time_series training_data test_data forecast test_data_mode y_axis_label color_dict =
      Except.error (PlotError.valueError invalidModeMsg) := by
  simp [plot_time_series, h1, h2]

theorem C1_witness :
    plot_time_series dfTrain (some dfTest) (some dfFc) "dots" "Value" (some []) =
      Except.error (PlotError.valueError invalidModeMsg) :=
  C1_invalid_mode_raises dfTrain (some dfTest) (some dfFc) "dots" "Value" (some [])
    (by decide) (by decide)

/-- Claim C2: when `test_data` and `forecast` are both `None` and the mode is
valid, the displayed figure contains exactly one trace: the training line
trace named "Training Data", drawn from the training frame and colored with
the "training" color of the resolved color dict. -/
theorem C2_training_only (training_data : DataFrame) (test_data_mode y_axis_label : String)
    (color_dict : Option ColorDict)
    (hm : test_data_mode = "markers" ∨ test_data_mode = "lines") (fig : Figure)
    (hok : plot_time_series training_data none none test_data_mode y_axis_label color_dict =
      Except.ok fig) :
    ∃ c, dictGet (resolveColorDict color_dict) "training" = Except.ok c ∧
      fig.traces = [{ x := training_data.index, y := iloc0 training_data, mode := "lines",
                      name := "Training Data", marker := none,
                      line := some { color := c, dash := none } }] := by
  rcases hm with hm | hm <;> subst hm <;>
    simp [plot_time_series, except_bind_ok] at hok <;>
    obtain ⟨c, hc, hfig⟩ := hok <;>
    exact ⟨c, hc, by rw [← hfig]⟩

theorem C2_witness :
    ∃ c, dictGet (resolveColorDict none) "training" = Except.ok c ∧
      (figOrDefault (plot_time_series dfTrain none none "markers" "Value" none)).traces =
        [{ x := dfTrain.index, y := iloc0 dfTrain, mode := "lines",
           name := "Training Data", marker := none,
           line := some { color := c, dash := none } }] :=
  C2_training_only dfTrain "markers" "Value" none (Or.inl rfl)
    (figOrDefault (plot_time_series dfTrain none none "markers" "Value" none)) rfl

/-- Claim C3: when `test_data` is provided and `test_data_mode` is "markers",
the second trace of the displayed figure is the test trace rendered as point
markers of size 6 (mode "markers", no line dict), colored with the "test"
color of the resolved color dict. -/
theorem C3_markers_test_trace (training_data td : DataFrame) (forecast : Option DataFrame)
    (y_axis_label : String) (color_dict : Option ColorDict) (fig : Figure)
    (hok : plot_time_series training_data (some td) forecast "markers" y_axis_label color_dict =
      Except.ok fig) :
    ∃ c, dictGet (resolveColorDict color_dict) "test" = Except.ok c ∧
      fig.traces.get? 1 = some { x := td.index, y := iloc0 td, mode := "markers",
                                 name := "Test Data",
                                 marker := some { color := c, size := 6 }, line := none } := by
  cases forecast <;> simp [plot_time_series, except_bind_ok, except_map_ok] at hok
  · obtain ⟨a, ha, a1, ha1, hfig⟩ := hok
    subst hfig
    exact ⟨a1, ha1, rfl⟩
  · obtain ⟨a, ha, a1, ha1, a2, ha2, hfig⟩ := hok
    subst hfig
    exact ⟨a1, ha1, rfl⟩

theorem C3_witness :
    ∃ c, dictGet (resolveColorDict none) "test" = Except.ok c ∧
      (figOrDefault (plot_time_series dfTrain (some dfTest) none "markers" "Value"
        none)).traces.get? 1 =
        some { x := dfTest.index, y := iloc0 dfTest, mode := "markers", name := "Test Data",
               marker := some { color := c, size := 6 }, line := none } :=
  C3_markers_test_trace dfTrain dfTest none "Value" none
    (figOrDefault (plot_time_series dfTrain (some dfTest) none "markers" "Value" none)) rfl

/-- Claim C4: when `test_data` is provided and `test_data_mode` is "lines",
the second trace of the displayed figure is the test trace rendered as a
connected line (mode "lines", line dict colored with the "test" color of the
resolved color dict) and carries no marker dict. -/
theorem C4_lines_test_trace (training_data td : DataFrame) (forecast : Option DataFrame)
    (y_axis_label : String) (color_dict : Option ColorDict) (fig : Figure)
    (hok : plot_time_series training_data (some td) forecast "lines" y_axis_label color_dict =
      Except.ok fig) :
    ∃ c, dictGet (resolveColorDict color_dict) "test" = Except.ok c ∧
      fig.traces.get? 1 = some { x := td.index, y := iloc0 td, mode := "lines",
                                 name := "Test Data", marker := none,
                                 line := some { color := c, dash := none } } := by
  cases forecast <;> simp [plot_time_series, except_bind_ok, except_map_ok] at hok
  · obtain ⟨a, ha, a1, ha1, hfig⟩ := hok
    subst hfig
    exact ⟨a1, ha1, rfl⟩
  · obtain ⟨a, ha, a1, ha1, a2, ha2, hfig⟩ := hok
    subst hfig
    exact ⟨a1, ha1, rfl⟩

theorem C4_witness :
    ∃ c, dictGet (resolveColorDict none) "test" = Except.ok c ∧
      (figOrDefault (plot_time_series dfTrain (some dfTest) none "lines" "Value"
        none)).traces.get? 1 =
        some { x := dfTest.index, y := iloc0 dfTest, mode := "lines", name := "Test Data",
               marker := none, line := some { color := c, dash := none } } :=
  C4_lines_test_trace dfTrain dfTest none "Value" none
    (figOrDefault (plot_time_series dfTrain (some dfTest) none "lines" "Value" none)) rfl

/-- Claim C5: when training, test and forecast are all provided and the mode
is valid, the displayed figure has exactly three traces, and the third is the
forecast trace: a dashed line (dash style "dash") named "Point Forecast",
colored with the "forecast" color of the resolved color dict. -/
theorem C5_three_traces (training_data td fc : DataFrame)
    (test_data_mode y_axis_label : String) (color_dict : Option ColorDict)
    (hm : test_data_mode = "markers" ∨ test_data_mode = "lines") (fig : Figure)
    (hok : plot_time_series training_data (some td) (some fc) test_data_mode y_axis_label
      color_dict = Except.ok fig) :
    fig.traces.length = 3 ∧
    ∃ c, dictGet (resolveColorDict color_dict) "forecast" = Except.ok c ∧
      fig.traces.get? 2 = some { x := fc.index, y := iloc0 fc, mode := "lines",
                                 name := "Point Forecast", marker := none,
                                 line := some { color := c, dash := some "dash" } } := by
  rcases hm with hm | hm <;> subst hm <;>
    simp [plot_time_series, except_bind_ok, except_map_ok] at hok <;>
    obtain ⟨a, ha, a1, ha1, a2, ha2, hfig⟩ := hok <;> subst hfig <;>
    exact ⟨rfl, a2, ha2, rfl⟩

theorem C5_witness :
    (figOrDefault (plot_time_series dfTrain (some dfTest) (some dfFc) "markers" "Value"
      none)).traces.length = 3 ∧
    ∃ c, dictGet (resolveColorDict none) "forecast" = Except.ok c ∧
      (figOrDefault (plot_time_series dfTrain (some dfTest) (some dfFc) "markers" "Value"
        none)).traces.get? 2 =
        some { x := dfFc.index, y := iloc0 dfFc, mode := "lines", name := "Point Forecast",
               marker := none, line := some { color := c, dash := some "dash" } } :=
  C5_three_traces dfTrain dfTest dfFc "markers" "Value" none (Or.inl rfl)
    (figOrDefault (plot_time_series dfTrain (some dfTest) (some dfFc) "markers" "Value" none))
    rfl

/-- Claim C6: the visible colors of the training, test and forecast traces
are exactly the "training", "test" and "forecast" entries of the resolved
color dict; when `color_dict` is omitted (`None`) these are the fixed
defaults #0072B2, #000000 and #FF0000, and when `color_dict` is supplied each
trace uses the color the supplied dict itself gives for its role. -/
theorem C6_colors (training_data td fc : DataFrame)
    (test_data_mode y_axis_label : String) (color_dict : Option ColorDict)
    (hm : test_data_mode = "markers" ∨ test_data_mode = "lines") (fig : Figure)
    (hok : plot_time_series training_data (some td) (some fc) test_data_mode y_axis_label
      color_dict = Except.ok fig) :
    ∃ c1 c2 c3,
      dictGet (resolveColorDict color_dict) "training" = Except.ok c1 ∧
      dictGet (resolveColorDict color_dict) "test" = Except.ok c2 ∧
      dictGet (resolveColorDict color_dict) "forecast" = Except.ok c3 ∧
      fig.traces.map traceColor = [some c1, some c2, some c3] ∧
      (color_dict = none → c1 = "#0072B2" ∧ c2 = "#000000" ∧ c3 = "#FF0000") ∧
      (∀ m, color_dict = some m →
        dictGet m "training" = Except.ok c1 ∧ dictGet m "test" = Except.ok c2 ∧
        dictGet m "forecast" = Except.ok c3) := by
  rcases hm with hm | hm <;> subst hm <;>
    simp [plot_time_series, except_bind_ok, except_map_ok] at hok <;>
    obtain ⟨a, ha, a1, ha1, a2, ha2, hfig⟩ := hok <;> subst hfig <;>
    refine ⟨a, a1, a2, ha, ha1, ha2, rfl, ?_, ?_⟩
  · rintro rfl
    simp [resolveColorDict, defaultColorDict, dictGet] at ha ha1 ha2
    exact ⟨ha.symm, ha1.symm, ha2.symm⟩
  · rintro m rfl
    exact ⟨ha, ha1, ha2⟩
  · rintro rfl
    simp [resolveColorDict, defaultColorDict, dictGet] at ha ha1 ha2
    exact ⟨ha.symm, ha1.symm, ha2.symm⟩
  · rintro m rfl
    exact ⟨ha, ha1, ha2⟩

theorem C6_witness :
    ∃ c1 c2 c3,
      dictGet (resolveColorDict none) "training" = Except.ok c1 ∧
      dictGet (resolveColorDict none) "test" = Except.ok c2 ∧
      dictGet (resolveColorDict none) "forecast" = Except.ok c3 ∧
      (figOrDefault (plot_time_series dfTrain (some dfTest) (some dfFc) "lines" "Value"
        none)).traces.map traceColor = [some c1, some c2, some c3] ∧
      ((none : Option ColorDict) = none →
        c1 = "#0072B2" ∧ c2 = "#000000" ∧ c3 = "#FF0000") ∧
      (∀ m, (none : Option ColorDict) = some m →
        dictGet m "training" = Except.ok c1 ∧ dictGet m "test" = Except.ok c2 ∧
        dictGet m "forecast" = Except.ok c3) :=
  C6_colors dfTrain dfTest dfFc "lines" "Value" none (Or.inr rfl)
    (figOrDefault (plot_time_series dfTrain (some dfTest) (some dfFc) "lines" "Value" none))
    rfl

/-- Claim C7: for every call that completes (reaches the display), the
layout of the displayed figure carries `y_axis_label` verbatim as the y-axis
caption and the literal "Date" as the x-axis caption, whatever the other
arguments are. -/
theorem C7_axis_titles (training_data : DataFrame) (test_data forecast : Option DataFrame)
    (test_data_mode y_axis_label : String) (color_dict : Option ColorDict) (fig : Figure)
    (hok : plot_time_series training_data test_data forecast test_data_mode y_axis_label
      color_dict = Except.ok fig) :
    fig.layout.yaxis_title = y_axis_label ∧ fig.layout.xaxis_title = "Date" := by
  by_cases hmk : test_data_mode = "markers"
  case neg =>
    by_cases hln : test_data_mode = "lines"
    case neg =>
      simp [plot_time_series, hmk, hln] at hok
    case pos =>
      subst hln
      cases test_data <;> cases forecast <;>
        simp [plot_time_series, except_bind_ok, except_map_ok] at hok
      · obtain ⟨a, -, hok⟩ := hok
        subst hok
        exact ⟨rfl, rfl⟩
      · obtain ⟨a, -, a2, -, hok⟩ := hok
        subst hok
        exact ⟨rfl, rfl⟩
      · obtain ⟨a, -, a1, -, hok⟩ := hok
        subst hok
        exact ⟨rfl, rfl⟩
      · obtain ⟨a, -, a1, -, a2, -, hok⟩ := hok
        subst hok
        exact ⟨rfl, rfl⟩
  case pos =>
    subst hmk
    cases test_data <;> cases forecast <;>
      simp [plot_time_series, except_bind_ok, except_map_ok] at hok
    · obtain ⟨a, -, hok⟩ := hok
      subst hok
      exact ⟨rfl, rfl⟩
    · obtain ⟨a, -, a2, -, hok⟩ := hok
      subst hok
      exact ⟨rfl, rfl⟩
    · obtain ⟨a, -, a1, -, hok⟩ := hok
      subst hok
      exact ⟨rfl, rfl⟩
    · obtain ⟨a, -, a1, -, a2, -, hok⟩ := hok
      subst hok
      exact ⟨rfl, rfl⟩

theorem C7_witness :
    (figOrDefault (plot_time_series dfTrain (some dfTest) (some dfFc) "markers" "Cases"
      none)).layout.yaxis_title = "Cases" ∧
    (figOrDefault (plot_time_series dfTrain (some dfTest) (some dfFc) "markers" "Cases"
      none)).layout.xaxis_title = "Date" :=
  C7_axis_titles dfTrain (some dfTest) (some dfFc) "markers" "Cases" none
    (figOrDefault (plot_time_series dfTrain (some dfTest) (some dfFc) "markers" "Cases" none))
    rfl

/-- Claim C8: defaults are all-or-nothing. A supplied color dict is used
exactly as given (`resolveColorDict (some m) = m`), the default dict is used
exactly when the caller passed `None`, and no per-key filling happens: a
supplied dict missing a key makes the lookup raise `KeyError` instead of
falling back to the default color for that key. -/
theorem C8_all_or_nothing (m : ColorDict) :
    resolveColorDict (some m) = m ∧ resolveColorDict none = defaultColorDict ∧
    ∀ k, hasKey m k = false →
      dictGet (resolveColorDict (some m)) k = Except.error (PlotError.keyError k) :=
  ⟨rfl, rfl, fun _ h => dictGet_of_hasKey_false h⟩

theorem C8_witness :
    resolveColorDict (some [("training", "#111111")]) = [("training", "#111111")] ∧
    resolveColorDict none = defaultColorDict ∧
    dictGet (resolveColorDict (some [("training", "#111111")])) "test" =
      Except.error (PlotError.keyError "test") :=
  ⟨(C8_all_or_nothing [("training", "#111111")]).1,
   (C8_all_or_nothing [("training", "#111111")]).2.1,
   (C8_all_or_nothing [("training", "#111111")]).2.2 "test" (by decide)⟩

/-- Claim C9: the mode is validated unconditionally. With `test_data = None`
an invalid `test_data_mode` still raises the `ValueError` (the mode is
checked even though it would never be used), and with a valid mode and
`test_data = None` the result does not depend on which valid mode was
passed (the mode is never consulted again). -/
theorem C9_mode_checked_unconditionally (training_data : DataFrame)
    (forecast : Option DataFrame) (test_data_mode y_axis_label : String)
    (color_dict : Option ColorDict)
    (h1 : test_data_mode ≠ "markers") (h2 : test_data_mode ≠ "lines") :
    plot_time_series training_data none forecast test_data_mode y_axis_label color_dict =
      Except.error (PlotError.valueError invalidModeMsg) ∧
    plot_time_series training_data none forecast "markers" y_axis_label color_dict =
      plot_time_series training_data none forecast "lines" y_axis_label color_dict := by
  constructor
  · simp [plot_time_series, h1, h2]
  · rfl

theorem C9_witness :
    plot_time_series dfTrain none (some dfFc) "spline" "Value" none =
      Except.error (PlotError.valueError invalidModeMsg) ∧
    plot_time_series dfTrain none (some dfFc) "markers" "Value" none =
      plot_time_series dfTrain none (some dfFc) "lines" "Value" none :=
  C9_mode_checked_unconditionally dfTrain (some dfFc) "spline" "Value" none
    (by decide) (by decide)

/-- Claim C10, counterexample to the claim as stated: a call whose
`color_dict` lacks the key "training" but whose `test_data_mode` is invalid
raises the `ValueError` from the mode validation, not a `KeyError` — the
mode check precedes every color lookup. -/
theorem C10_counterexample :
    hasKey [] "training" = false ∧
    plot_time_series dfTrain none none "neither" "Value" (some []) =
      Except.error (PlotError.valueError invalidModeMsg) ∧
    raisesKeyError (plot_time_series dfTrain none none "neither" "Value" (some [])) = false :=
  ⟨rfl, rfl, rfl⟩

/-- Claim C10 as amended: when `test_data_mode` is valid, a supplied color
dict lacking "training" — or lacking "test" while `test_data` is provided,
or lacking "forecast" while `forecast` is provided and every earlier lookup
succeeds — makes the call raise `KeyError` for that key while building the
corresponding trace, so the display call is never reached. -/
theorem C10_missing_key_raises (training_data : DataFrame)
    (test_data forecast : Option DataFrame) (test_data_mode y_axis_label : String)
    (m : ColorDict) (hm : test_data_mode = "markers" ∨ test_data_mode = "lines") :
    (hasKey m "training" = false →
      plot_time_series training_data test_data forecast test_data_mode y_axis_label (some m) =
        Except.error (PlotError.keyError "training")) ∧
    (hasKey m "training" = true → test_data.isSome = true → hasKey m "test" = false →
      plot_time_series training_data test_data forecast test_data_mode y_axis_label (some m) =
        Except.error (PlotError.keyError "test")) ∧
    (hasKey m "training" = true → (test_data.isSome = true → hasKey m "test" = true) →
      forecast.isSome = true → hasKey m "forecast" = false →
      plot_time_series training_data test_data forecast test_data_mode y_axis_label (some m) =
        Except.error (PlotError.keyError "forecast")) := by
  refine ⟨?_, ?_, ?_⟩
  · intro h
    have hd := dictGet_of_hasKey_false h
    rcases hm with hm | hm <;> subst hm <;>
      simp [plot_time_series, resolveColorDict, hd, Except.bind]
  · intro htr hts hte
    obtain ⟨c, hc⟩ := dictGet_of_hasKey_true htr
    have hd := dictGet_of_hasKey_false hte
    cases test_data with
    | none => simp at hts
    | some td =>
      rcases hm with hm | hm <;> subst hm <;>
        simp [plot_time_series, resolveColorDict, hc, hd, Except.bind, Except.map]
  · intro htr hts hf hfc
    obtain ⟨c, hc⟩ := dictGet_of_hasKey_true htr
    have hd := dictGet_of_hasKey_false hfc
    cases forecast with
    | none => simp at hf
    | some fc =>
      cases test_data with
      | none =>
        rcases hm with hm | hm <;> subst hm <;>
          simp [plot_time_series, resolveColorDict, hc, hd, Except.bind, Except.map]
      | some td =>
        obtain ⟨c2, hc2⟩ := dictGet_of_hasKey_true (hts rfl)
        rcases hm with hm | hm <;> subst hm <;>
          simp [plot_time_series, resolveColorDict, hc, hc2, hd, Except.bind, Except.map]

theorem C10_witness :
    plot_time_series dfTrain (some dfTest) none "markers" "Value"
      (some [("training", "a")]) = Except.error (PlotError.keyError "test") :=
  (C10_missing_key_raises dfTrain (some dfTest) none "markers" "Value" [("training", "a")]
    (Or.inl rfl)).2.1 (by decide) rfl (by decide)
